import Mathlib

set_option maxHeartbeats 1000000
set_option maxRecDepth 20000

namespace RiftRust

/-! Shallow embedding of the rift_rust repository (src/src/packet.rs,
src/src/lie_exchange.rs, src/src/tie_exchange.rs).  Machine integers are
modelled as Nat with explicit `% 2^w` at the points where the Rust source
performs a truncating cast or where wrap-around matters; fields whose Rust
type already bounds them (u8 / u16 / u32 / NonZeroU16) carry their bound as a
well-formedness predicate.  Fallible Rust code returns Except / Option. -/

/-- Bytes on the wire are modelled as natural numbers; a well-formed byte is
below 256. -/
abbrev Byte := Nat

/-- Error type of src/src/packet.rs (enum ParsingError).  The thrift error
payload carries no information needed here. -/
inductive ParsingError where
  | notMagical (v : Nat)
  | wrongMajorVersion (v : Nat)
  | invalidOuterEnvelope
  | invalidTIEEnvelope
  | thriftError
  | outOfRange (lo hi len : Nat)
deriving Repr, DecidableEq

/-- Constant protocol_major_version of the generated models::encoding module
(thrift-generated code, not under src/).  Modelled from the spec: the outer
envelope major version "must match the implementation constant", and the
captured test packets in src/src/packet.rs carry major version 6. -/
def PROTOCOL_MAJOR_VERSION : Nat := 6

/-- Constant undefined_packet_number of the generated models::common module
(thrift-generated code, not under src/).  Modelled from the spec: the reserved
"undefined" wire value of a packet number, 0 in the RIFT schema. -/
def UNDEFINED_PACKET_NUMBER : Nat := 0

/-- Constant undefined_nonce of the generated models::common module
(thrift-generated code, not under src/).  Modelled from the spec: a nonce is
Invalid or Valid(u16 not 0), and src/src/packet.rs writes Nonce::Invalid as
the two zero bytes. -/
def UNDEFINED_NONCE : Nat := 0

/-- Constant invalid_key_value_key of the generated models::common module
(thrift-generated code, not under src/).  Modelled from the spec: the Invalid
key id has wire value 0 (the captured test packet decodes key id byte 0 as
KeyID::Invalid). -/
def INVALID_KEY_VALUE_KEY : Nat := 0

/-- Constant illegal_system_i_d of the generated models::common module
(thrift-generated code, not under src/).  Modelled from the spec: a SystemID
is non-zero and distinct from the reserved ILLEGAL value, 0 in the RIFT
schema. -/
def ILLEGAL_SYSTEM_I_D : Nat := 0

/-- Constant leaf_level of the generated models::common module (re-exported by
src/src/lie_exchange.rs as LEAF_LEVEL).  Modelled from the spec: LEAF_LEVEL is
the bottom level value, 0. -/
def LEAF_LEVEL : Nat := 0

/-- The all-ones u32 sentinel (0xFFFF_FFFF) marking an absent
remaining_tie_lifetime. -/
def LIFETIME_SENTINEL : Nat := 0xFFFFFFFF

/-- PacketNumber of src/src/packet.rs. -/
inductive PacketNumber where
  | undefined
  | value (v : Nat)
deriving Repr, DecidableEq

/-- From u16 for PacketNumber (src/src/packet.rs lines 345-353). -/
def PacketNumber.ofU16 (number : Nat) : PacketNumber :=
  if number = UNDEFINED_PACKET_NUMBER then .undefined else .value number

/-- From PacketNumber for u16 (src/src/packet.rs lines 355-362). -/
def PacketNumber.toU16 : PacketNumber → Nat
  | .undefined => UNDEFINED_PACKET_NUMBER
  | .value v => v

/-- Nonce of src/src/packet.rs.  The Rust Valid payload is NonZeroU16; the
bound is a well-formedness condition here. -/
inductive Nonce where
  | invalid
  | valid (v : Nat)
deriving Repr, DecidableEq

/-- Rust-representable nonce: the Valid payload is a non-zero u16. -/
def Nonce.wf : Nonce → Prop
  | .invalid => True
  | .valid v => 0 < v ∧ v < 65536

instance (n : Nonce) : Decidable n.wf := by
  cases n <;> simp [Nonce.wf] <;> infer_instance

/-- Big-endian bytes of a u16 (u16::to_be_bytes). -/
def u16Bytes (v : Nat) : List Byte := [v / 256 % 256, v % 256]

/-- Big-endian bytes of a u32 (u32::to_be_bytes). -/
def u32Bytes (v : Nat) : List Byte :=
  [v / 16777216 % 256, v / 65536 % 256, v / 256 % 256, v % 256]

/-- Nonce::to_be_bytes (src/src/packet.rs lines 371-377). -/
def Nonce.toBeBytes : Nonce → List Byte
  | .invalid => [0, 0]
  | .valid v => u16Bytes v

/-- From u16 for Nonce (src/src/packet.rs lines 397-405). -/
def Nonce.ofU16 (value : Nat) : Nonce :=
  if value = UNDEFINED_NONCE then .invalid else .valid value

/-- impl Add of u16 for Nonce (src/src/packet.rs lines 379-395).  Arithmetic
wraps modulo 2^16 (release-mode overflow semantics of the Rust + operator);
the NonZeroU16::new(added).unwrap() of the source is the None outcome. -/
def Nonce.addU16 : Nonce → Nat → Option Nonce
  | .invalid, _ => some .invalid
  | .valid v, rhs =>
    let sum := (v + rhs) % 65536
    let added := if sum = UNDEFINED_NONCE then (sum + 1) % 65536 else sum
    if added = 0 then none else some (.valid added)

/-- KeyID of src/src/packet.rs.  The Rust Valid payload is NonZeroU32. -/
inductive KeyID where
  | invalid
  | valid (id : Nat)
deriving Repr, DecidableEq

/-- From u32 for KeyID (src/src/packet.rs lines 461-469); the From u8
instance delegates to it. -/
def KeyID.ofU32 (number : Nat) : KeyID :=
  if number = INVALID_KEY_VALUE_KEY then .invalid else .valid number

/-- OuterSecurityEnvelopeHeader of src/src/packet.rs. -/
structure OuterSecurityEnvelopeHeader where
  packetNumber : PacketNumber
  majorVersion : Nat
  outerKeyId : KeyID
  securityFingerprint : List Byte
  weakNonceLocal : Nonce
  weakNonceRemote : Nonce
  remainingTieLifetime : Option Nat
deriving Repr, DecidableEq

/-- get_u8 of src/src/packet.rs (lines 477-482). -/
def get_u8 (slice : List Byte) (index : Nat) : Except ParsingError Byte :=
  match slice[index]? with
  | some b0 => .ok b0
  | none => .error (.outOfRange index (index + 1) slice.length)

/-- get_u16 of src/src/packet.rs (lines 484-489), big-endian recomposition. -/
def get_u16 (slice : List Byte) (index : Nat) : Except ParsingError Nat :=
  match slice[index]?, slice[index + 1]? with
  | some b0, some b1 => .ok (b0 * 256 + b1)
  | _, _ => .error (.outOfRange index (index + 2) slice.length)

/-- get_u32 of src/src/packet.rs (lines 491-499), big-endian recomposition. -/
def get_u32 (slice : List Byte) (index : Nat) : Except ParsingError Nat :=
  match slice[index]?, slice[index + 1]?, slice[index + 2]?,
      slice[index + 3]? with
  | some b0, some b1, some b2, some b3 =>
    .ok (b0 * 16777216 + b1 * 65536 + b2 * 256 + b3)
  | _, _, _, _ => .error (.outOfRange index (index + 4) slice.length)

/-- The slice access bytes.get(lo..hi) of the Rust source: the sub-slice when
hi is within bounds, None otherwise (lo <= hi at every call site). -/
def getSlice (slice : List Byte) (lo hi : Nat) : Option (List Byte) :=
  if hi ≤ slice.length then some ((slice.drop lo).take (hi - lo)) else none

/-- OuterSecurityEnvelopeHeader::parse_packet (src/src/packet.rs lines
153-203).  Returns the header, the payload after the envelope, and the
payload-with-nonces slice that fingerprint validation covers. -/
def OuterSecurityEnvelopeHeader.parsePacket (bytes : List Byte) :
    Except ParsingError (OuterSecurityEnvelopeHeader × List Byte × List Byte) :=
  match get_u16 bytes 0 with
  | .error e => .error e
  | .ok riftMagic =>
    if riftMagic ≠ 0xA1F7 then .error (.notMagical riftMagic) else
    match get_u16 bytes 2 with
    | .error e => .error e
    | .ok packetNumberRaw =>
      match get_u8 bytes 4 with
      | .error e => .error e
      | .ok _reserved =>
        match get_u8 bytes 5 with
        | .error e => .error e
        | .ok majorVersion =>
          if majorVersion ≠ PROTOCOL_MAJOR_VERSION then
            .error (.wrongMajorVersion majorVersion) else
          match get_u8 bytes 6 with
          | .error e => .error e
          | .ok outerKeyIdRaw =>
            match get_u8 bytes 7 with
            | .error e => .error e
            | .ok fingerprintLength =>
              let fingerprintEnd := 8 + fingerprintLength * 4
              match getSlice bytes 8 fingerprintEnd with
              | none => .error (.outOfRange 8 fingerprintEnd bytes.length)
              | some securityFingerprint =>
                match get_u16 bytes fingerprintEnd with
                | .error e => .error e
                | .ok weakNonceLocal =>
                  match get_u16 bytes (fingerprintEnd + 2) with
                  | .error e => .error e
                  | .ok weakNonceRemote =>
                    match get_u32 bytes (fingerprintEnd + 4) with
                    | .error e => .error e
                    | .ok lifetime =>
                      .ok ({ packetNumber := PacketNumber.ofU16 packetNumberRaw
                             majorVersion := majorVersion
                             outerKeyId := KeyID.ofU32 outerKeyIdRaw
                             securityFingerprint := securityFingerprint
                             weakNonceLocal := Nonce.ofU16 weakNonceLocal
                             weakNonceRemote := Nonce.ofU16 weakNonceRemote
                             remainingTieLifetime :=
                               if lifetime = LIFETIME_SENTINEL then none
                               else some lifetime },
                           bytes.drop (fingerprintEnd + 8),
                           bytes.drop fingerprintEnd)

/-- OuterSecurityEnvelopeHeader::write (src/src/packet.rs lines 214-245).
The key id byte and the fingerprint length byte reproduce the source's
truncating u8 casts. -/
def OuterSecurityEnvelopeHeader.write (h : OuterSecurityEnvelopeHeader) :
    List Byte :=
  [0xa1, 0xf7] ++ u16Bytes h.packetNumber.toU16 ++ [0x0] ++ [h.majorVersion] ++
    [(match h.outerKeyId with
      | .invalid => 0
      | .valid id => id % 256)] ++
    [h.securityFingerprint.length / 4 % 256] ++
    h.securityFingerprint ++
    h.weakNonceLocal.toBeBytes ++ h.weakNonceRemote.toBeBytes ++
    u32Bytes (match h.remainingTieLifetime with
      | some lifetime => lifetime
      | none => LIFETIME_SENTINEL)

/-- TIEOriginSecurityEnvelopeHeader of src/src/packet.rs. -/
structure TIEOriginSecurityEnvelopeHeader where
  tieOriginKeyId : KeyID
  securityFingerprint : List Byte
deriving Repr, DecidableEq

/-- TIEOriginSecurityEnvelopeHeader::parse_packet (src/src/packet.rs lines
283-306). -/
def TIEOriginSecurityEnvelopeHeader.parsePacket (bytes : List Byte) :
    Except ParsingError (TIEOriginSecurityEnvelopeHeader × List Byte) :=
  match bytes[0]?, bytes[1]?, bytes[2]? with
  | some b0, some b1, some b2 =>
    let tieOriginKeyId := KeyID.ofU32 (b0 * 65536 + b1 * 256 + b2)
    match get_u8 bytes 3 with
    | .error e => .error e
    | .ok fingerprintLength =>
      let fingerprintEnd := 4 + fingerprintLength * 4
      match getSlice bytes 4 fingerprintEnd with
      | none => .error (.outOfRange 4 fingerprintEnd bytes.length)
      | some securityFingerprint =>
        .ok ({ tieOriginKeyId := tieOriginKeyId
               securityFingerprint := securityFingerprint },
             bytes.drop fingerprintEnd)
  | _, _, _ => .error (.outOfRange 0 3 bytes.length)

/-- Key of src/src/topology.rs, as far as fingerprint validation observes it.
The SHA-256 computation of Key::compute_fingerprint is abstracted: every
theorem below quantifies over the fingerprint function. -/
structure Key where
  id : Nat
  secret : List Byte
deriving Repr, DecidableEq

/-- Abstraction of Key::compute_fingerprint applied to a single payload
slice (the only shape SecretKeyStore::validate uses). -/
abbrev FingerprintFn := Key → List Byte → List Byte

/-- SecretKeyStore of src/src/packet.rs; the HashMap of secrets is an
association list keyed by the NonZeroU32 key id. -/
structure SecretKeyStore where
  secrets : List (Nat × Key)
deriving Repr, DecidableEq

/-- SecretKeyStore::validate (src/src/packet.rs lines 422-427): a missing key
makes every fingerprint invalid. -/
def SecretKeyStore.validate (fp : FingerprintFn) (ks : SecretKeyStore)
    (key : Nat) (fingerprint payload : List Byte) : Bool :=
  match ks.secrets.lookup key with
  | none => false
  | some k => fp k payload == fingerprint

/-- OuterSecurityEnvelopeHeader::validate (src/src/packet.rs lines 205-212). -/
def OuterSecurityEnvelopeHeader.validate (fp : FingerprintFn)
    (h : OuterSecurityEnvelopeHeader) (keystore : SecretKeyStore)
    (payload : List Byte) : Bool :=
  match h.outerKeyId with
  | .valid key => keystore.validate fp key h.securityFingerprint payload
  | .invalid => true

/-- TIEOriginSecurityEnvelopeHeader::validate (src/src/packet.rs lines
308-315). -/
def TIEOriginSecurityEnvelopeHeader.validate (fp : FingerprintFn)
    (h : TIEOriginSecurityEnvelopeHeader) (keystore : SecretKeyStore)
    (payload : List Byte) : Bool :=
  match h.tieOriginKeyId with
  | .valid key => keystore.validate fp key h.securityFingerprint payload
  | .invalid => true

/-- parse_and_validate (src/src/packet.rs lines 48-83).  The thrift body
decoder is abstracted as the decode parameter.  Note the faithful detail at
the TIE-origin branch: the source returns ParsingError::InvalidOuterEnvelope
(line 65) when the TIE-origin fingerprint fails to validate. -/
def parseAndValidate {α : Type} (fp : FingerprintFn)
    (decode : List Byte → Except ParsingError α) (bytes : List Byte)
    (keystore : SecretKeyStore) : Except ParsingError α :=
  match OuterSecurityEnvelopeHeader.parsePacket bytes with
  | .error e => .error e
  | .ok (outerSecurityHeader, bytes1, payloadWithNonces) =>
    if !(outerSecurityHeader.validate fp keystore payloadWithNonces) then
      .error .invalidOuterEnvelope
    else
      match outerSecurityHeader.remainingTieLifetime with
      | none => decode bytes1
      | some _ =>
        match TIEOriginSecurityEnvelopeHeader.parsePacket bytes1 with
        | .error e => .error e
        | .ok (header, bytes2) =>
          if !(header.validate fp keystore bytes2) then
            .error .invalidOuterEnvelope
          else decode bytes2

/-! Embedding of src/src/lie_exchange.rs: the LIE state machine state that
PROCESS_LIE touches, the PROCESS_LIE and CHECK_THREE_WAY procedures, and the
COMPARE_OFFERS procedure of the ZTP state machine.  Timers hold wall-clock
Instants; a timer is modelled by its length in seconds (the start instant is
not observable by the procedures embedded here). -/

/-- Level of src/src/lie_exchange.rs (enum Level). -/
inductive Level where
  | undefined
  | value (v : Nat)
deriving Repr, DecidableEq

/-- From Option LevelType for Level (src/src/lie_exchange.rs lines
989-996). -/
def Level.ofOption : Option Nat → Level
  | some level => .value level
  | none => .undefined

/-- The derived Rust Ord on Level: Undefined below every Value, Values by
their number. -/
def Level.lt : Level → Level → Bool
  | .undefined, .undefined => false
  | .undefined, .value _ => true
  | .value _, .undefined => false
  | .value a, .value b => a < b

/-- Rust Iterator::max over levels: the running maximum of a list, None when
empty (ties keep the later element, which is equal by DecidableEq here). -/
def levelListMax (levels : List Level) : Option Level :=
  levels.foldl
    (fun acc l =>
      match acc with
      | none => some l
      | some m => if Level.lt l m then some m else some l)
    none

/-- LieState of src/src/lie_exchange.rs. -/
inductive LieState where
  | oneWay
  | twoWay
  | threeWay
  | multipleNeighborsWait
deriving Repr, DecidableEq

/-- PacketHeader of the generated models::encoding module, as read by
PROCESS_LIE (major_version, sender, level).  The minor version is never
inspected by the embedded procedures. -/
structure PacketHeader where
  majorVersion : Nat
  minorVersion : Nat
  sender : Nat
  level : Option Nat
deriving Repr, DecidableEq

/-- Neighbor element of a LIE body (models::encoding::Neighbor). -/
structure NeighborElement where
  originator : Nat
  remoteId : Nat
deriving Repr, DecidableEq

/-- LIEPacket of the generated models::encoding module, restricted to the
fields PROCESS_LIE and CHECK_THREE_WAY read: name, local_id, flood_port,
link_mtu_size, neighbor and holdtime.  The remaining optional fields are
never inspected by the embedded procedures. -/
structure LIEPacket where
  name : Option String
  localId : Nat
  floodPort : Nat
  linkMtuSize : Option Nat
  neighbor : Option NeighborElement
  holdtime : Nat
deriving Repr, DecidableEq

/-- Neighbor of src/src/lie_exchange.rs (the stored neighbor value). -/
structure Neighbor where
  level : Level
  address : Nat
  systemId : Nat
  floodPort : Nat
  name : Option String
  localLinkId : Nat
deriving Repr, DecidableEq

/-- LieEvent of src/src/lie_exchange.rs.  The payload-carrying events keep
exactly the payloads the source attaches. -/
inductive LieEvent where
  | timerTick
  | levelChanged (l : Level)
  | halChanged (l : Level)
  | hatChanged (l : Level)
  | halsChanged
  | lieRcvd (address : Nat) (header : PacketHeader) (packet : LIEPacket)
  | newNeighbor
  | validReflection
  | neighborDroppedReflection
  | neighborChangedLevel
  | neighborChangedAddress
  | unacceptableHeader
  | mtuMismatch
  | neighborChangedMinorFields
  | holdtimeExpired
  | multipleNeighbors
  | multipleNeighborsDone
  | floodLeadersChanged
  | sendLie
  | updateZTPOffer
deriving Repr, DecidableEq

/-- The portion of LieStateMachine (src/src/lie_exchange.rs) that
PROCESS_LIE reads and writes: the current state, the chained event queue,
the level, the HAT, the neighbor, and the last valid LIE (kept as the timer
length in seconds together with the header and body snapshot). -/
structure LieStateMachine where
  lieState : LieState
  chainedEventQueue : List LieEvent
  level : Level
  highestAvailableLevel : Level
  highestAdjacencyThreeway : Level
  neighbor : Option Neighbor
  lastValidLie : Option (Nat × PacketHeader × LIEPacket)
deriving Repr, DecidableEq

/-- The PUSH procedure (src/src/lie_exchange.rs lines 808-816): append to the
chained event queue. -/
def LieStateMachine.push (s : LieStateMachine) (event : LieEvent) :
    LieStateMachine :=
  { s with chainedEventQueue := s.chainedEventQueue ++ [event] }

/-- The CLEANUP procedure (src/src/lie_exchange.rs lines 799-801). -/
def LieStateMachine.cleanup (s : LieStateMachine) : LieStateMachine :=
  { s with neighbor := none }

/-- u8::abs_diff of the source's level difference computation. -/
def u8AbsDiff (a b : Nat) : Nat := if a ≤ b then b - a else a - b

/-- The CHECK_THREE_WAY procedure (src/src/lie_exchange.rs lines 713-735). -/
def LieStateMachine.checkThreeWay (s : LieStateMachine) (packet : LIEPacket)
    (systemId : Nat) (localLinkId : Nat) : LieStateMachine :=
  match s.lieState, packet.neighbor with
  | .oneWay, _ => s
  | .twoWay, none => s
  | .twoWay, some neighbor =>
    if neighbor.originator = systemId ∧ neighbor.remoteId = localLinkId then
      s.push .validReflection
    else
      s.push .multipleNeighbors
  | .threeWay, none => s.push .neighborDroppedReflection
  | .threeWay, some _ => s
  | .multipleNeighborsWait, _ => s

/-- The PROCESS_LIE procedure (src/src/lie_exchange.rs lines 506-678).
Arguments mirror the source: the address the LIE arrived on, the packet
header and body, and the receiving socket's system id, local link id and
MTU. -/
def LieStateMachine.processLieProcedure (s : LieStateMachine) (address : Nat)
    (lieHeader : PacketHeader) (liePacket : LIEPacket) (systemId : Nat)
    (localLinkId : Nat) (socketMtu : Nat) : LieStateMachine :=
  let lieLevel := Level.ofOption lieHeader.level
  -- 1. major version mismatch, or sender equal to this node or illegal
  if lieHeader.majorVersion ≠ PROTOCOL_MAJOR_VERSION ∨
      lieHeader.sender = systemId ∨ lieHeader.sender = ILLEGAL_SYSTEM_I_D then
    s.cleanup
  else if liePacket.linkMtuSize ≠ some socketMtu then
    -- 2. non-matching MTUs
    ((s.cleanup.push .updateZTPOffer).push .mtuMismatch)
  else
    -- 3. record the last valid LIE with a timer armed for the holdtime
    let s := { s with lastValidLie := some (liePacket.holdtime, lieHeader, liePacket) }
    let acceptLie :=
      match s.level, lieLevel with
      | _, .undefined => false
      | .undefined, _ => false
      | .value ourLevel, .value remoteLevel =>
        let localIsLeaf := ourLevel = LEAF_LEVEL
        let remoteIsLeaf := remoteLevel = LEAF_LEVEL
        let allowEastWest := false
        let remoteBelowHat :=
          match s.highestAdjacencyThreeway with
          | .undefined => false
          | .value hat => remoteLevel = hat
        let levelDiff := u8AbsDiff remoteLevel ourLevel
        if localIsLeaf ∧ ¬remoteBelowHat then true
        else if ¬localIsLeaf ∧ remoteIsLeaf then true
        else if localIsLeaf ∧ remoteIsLeaf ∧ allowEastWest then true
        else if ¬localIsLeaf ∧ ¬remoteIsLeaf ∧ levelDiff ≤ 1 then true
        else false
    if !acceptLie then
      ((s.cleanup.push .updateZTPOffer).push .unacceptableHeader)
    else
      -- 4. PUSH UpdateZTPOffer, build the tentative neighbor
      let s := s.push .updateZTPOffer
      let newNeighbor : Neighbor :=
        { name := liePacket.name
          systemId := lieHeader.sender
          localLinkId := liePacket.localId
          level := Level.ofOption lieHeader.level
          address := address
          floodPort := liePacket.floodPort }
      match s.neighbor with
      | none =>
        (({ s with neighbor := some newNeighbor }).push .newNeighbor).checkThreeWay
          liePacket systemId localLinkId
      | some currNeighbor =>
        if currNeighbor.systemId ≠ newNeighbor.systemId then
          s.push .multipleNeighbors
        else if currNeighbor.level ≠ newNeighbor.level then
          s.push .neighborChangedLevel
        else if currNeighbor.address ≠ newNeighbor.address then
          s.push .neighborChangedAddress
        else if currNeighbor.floodPort ≠ newNeighbor.floodPort ∨
            currNeighbor.name ≠ newNeighbor.name ∨
            currNeighbor.localLinkId ≠ newNeighbor.localLinkId then
          s.push .neighborChangedMinorFields
        else
          s.checkThreeWay liePacket systemId localLinkId

/-- Offer of src/src/lie_exchange.rs (the ZTP offer table entry). -/
structure Offer where
  level : Level
  systemId : Nat
  state : LieState
  expired : Bool
deriving Repr, DecidableEq

/-- ZtpEvent of src/src/lie_exchange.rs (payloads dropped where the embedded
procedures never inspect them). -/
inductive ZtpEvent where
  | changeLocalHierarchyIndications
  | changeLocalConfiguredLevel (l : Level)
  | neighborOffer (o : Offer)
  | betterHAL
  | betterHAT
  | lostHAL
  | lostHAT
  | computationDone
  | holdDownExpired
  | shortTic
deriving Repr, DecidableEq

/-- The COMPARE_OFFERS procedure (src/src/lie_exchange.rs lines 1290-1324).
The offers argument lists the values of the ZTP offer table; hal and hat are
the stored highest_available_level and highest_adjacency_threeway.  Returns
the emitted events together with the CompareOffersResults the source stores
(best HAL, best HAT). -/
def compareOffers (offers : List Offer) (hal hat : Level) :
    List ZtpEvent × Option Level × Option Level :=
  let bestOffer := levelListMax (offers.map (·.level))
  let bestOfferHat :=
    levelListMax ((offers.filter (fun o => o.state = LieState.threeWay)).map (·.level))
  let halEvents : List ZtpEvent :=
    match bestOffer with
    | some best => if hal ≠ best then [.betterHAL] else [.lostHAL]
    | none => [.lostHAL]
  let hatEvents : List ZtpEvent :=
    match bestOfferHat with
    | some best => if hat ≠ best then [.betterHAT] else [.lostHAT]
    | none => [.lostHAT]
  (halEvents ++ hatEvents, bestOffer, bestOfferHat)

/-! Embedding of src/src/tie_exchange.rs: the TIE flooding state machine, its
four per-adjacency queues (BTreeSets of TIEHeader, modelled as duplicate-free
lists with membership by full-header equality, exactly like the Rust Ord/Eq
on TIEHeader), and TIDE processing.  The helpers the source leaves
unimplemented (LinkStateDatabase::find, bump_own_tie, tie_has_content,
is_north_tie_and_from_northbound, LinkStateDatabase::replace,
is_flood_filtered, is_request_filtered — all todo panics in the source) are
taken as parameters; theorems quantify over them.  Modelled from the spec:
these are the flood-scoping and LSDB helpers the draft defers, so each
parameter is an arbitrary function of the data the Rust signature exposes
(replace is given the spec meaning "replace DBTIE with HEADER in LSDB"). -/

/-- TIEID of the generated models::encoding module: direction, originator,
tietype, tie_nr, ordered lexicographically (the derived Rust Ord). -/
structure TIEID where
  direction : Nat
  originator : Nat
  tietype : Nat
  tieNr : Nat
deriving Repr, DecidableEq, Ord

/-- Strict order on TIEID, the derived lexicographic Rust Ord. -/
def TIEID.lt (a b : TIEID) : Bool := compare a b == Ordering.lt

/-- IEEE802_1ASTimeStampType of the generated models::common module. -/
structure TimeStamp where
  aSSec : Nat
  aSNsec : Option Nat
deriving Repr, DecidableEq, Ord

/-- TIEHeader of the generated models::encoding module: tieid, seq_nr and the
optional origination time and lifetime, ordered lexicographically by the
derived Rust Ord (None below Some). -/
structure TIEHeader where
  tieid : TIEID
  seqNr : Nat
  originationTime : Option TimeStamp
  originationLifetime : Option Nat
deriving Repr, DecidableEq, Ord

/-- Strict order on TIEHeader, the derived lexicographic Rust Ord. -/
def TIEHeader.lt (a b : TIEHeader) : Bool := compare a b == Ordering.lt

/-- TIEPacket of the generated models::encoding module: a header plus the TIE
element; the element is opaque to every embedded procedure and carried as a
bare number. -/
structure TIEPacket where
  header : TIEHeader
  element : Nat
deriving Repr, DecidableEq

/-- TIEHeaderWithLifeTime of the generated models::encoding module. -/
structure TIEHeaderWithLifeTime where
  header : TIEHeader
  remainingLifetime : Nat
deriving Repr, DecidableEq

/-- TIDEPacket of the generated models::encoding module. -/
structure TIDEPacket where
  startRange : TIEID
  endRange : TIEID
  headers : List TIEHeaderWithLifeTime
deriving Repr, DecidableEq

/-- BTreeSet::insert on a duplicate-free list. -/
def setInsert (l : List TIEHeader) (x : TIEHeader) : List TIEHeader :=
  if x ∈ l then l else l ++ [x]

/-- BTreeSet::remove on a duplicate-free list. -/
def setRemove (l : List TIEHeader) (x : TIEHeader) : List TIEHeader := l.erase x

/-- TieStateMachine of src/src/tie_exchange.rs: the four queues (the source's
field spelling acknoledge_ties is kept) and the link-state database, an
ordered map from TIEID to TIEPacket carried as an association list in
ascending key order. -/
structure TieStateMachine where
  transmitTies : List TIEHeader
  acknoledgeTies : List TIEHeader
  requestedTies : List TIEHeader
  retransmitTies : List TIEHeader
  lsDb : List (TIEID × TIEPacket)
deriving Repr, DecidableEq

/-- try_to_transmit_tie (src/src/tie_exchange.rs lines 512-526).  The
is_flood_filtered predicate (unimplemented in the source) is the
floodFiltered parameter.  Note the faithful details: the first removal is
from requested_ties (the source removes from TIES_REQ although its own
comment says TIES_RTX), and when acknoledge_ties holds the header the source
reaches an unconditional todo panic after its seq_nr comparison, hence
none. -/
def TieStateMachine.tryToTransmitTie (floodFiltered : TIEHeader → Bool)
    (s : TieStateMachine) (tie : TIEHeader) : Option TieStateMachine :=
  if !(floodFiltered tie) then
    let s1 := { s with requestedTies := setRemove s.requestedTies tie }
    if s1.acknoledgeTies.contains tie then
      none
    else
      some { s1 with transmitTies := setInsert s1.transmitTies tie }
  else some s

/-- ack_tie (src/src/tie_exchange.rs lines 529-535): remove the TIE's header
from all collections, then insert it into TIES_ACK. -/
def TieStateMachine.ackTie (s : TieStateMachine) (tie : TIEPacket) :
    TieStateMachine :=
  { s with
    transmitTies := setRemove s.transmitTies tie.header
    acknoledgeTies := setInsert (setRemove s.acknoledgeTies tie.header) tie.header
    retransmitTies := setRemove s.retransmitTies tie.header
    requestedTies := setRemove s.requestedTies tie.header }

/-- tie_been_acked (src/src/tie_exchange.rs lines 538-543): remove the header
from all collections. -/
def TieStateMachine.tieBeenAcked (s : TieStateMachine) (tie : TIEHeader) :
    TieStateMachine :=
  { s with
    transmitTies := setRemove s.transmitTies tie
    acknoledgeTies := setRemove s.acknoledgeTies tie
    retransmitTies := setRemove s.retransmitTies tie
    requestedTies := setRemove s.requestedTies tie }

/-- remove_from_all_queues (src/src/tie_exchange.rs lines 546-548): same as
tie_been_acked. -/
def TieStateMachine.removeFromAllQueues (s : TieStateMachine)
    (tie : TIEHeader) : TieStateMachine :=
  s.tieBeenAcked tie

/-- request_tie (src/src/tie_exchange.rs lines 550-555).  The
is_request_filtered predicate (unimplemented in the source) is the
requestFiltered parameter. -/
def TieStateMachine.requestTie (requestFiltered : TIEHeader → Bool)
    (s : TieStateMachine) (tie : TIEHeader) : TieStateMachine :=
  if !(requestFiltered tie) then
    { s.removeFromAllQueues tie with
      requestedTies := setInsert (s.removeFromAllQueues tie).requestedTies tie }
  else s

/-- The per-header loop of process_tide (src/src/tie_exchange.rs lines
221-287), accumulating TXKEYS, REQKEYS and CLEARKEYS and threading the
machine state and the LASTPROCESSED cursor. -/
def processTideLoop
    (find : List (TIEID × TIEPacket) → TIEHeader → Option TIEPacket)
    (bumpOwnTie : TieStateMachine → TIEHeader → TieStateMachine)
    (tieHasContent : TIEPacket → Bool)
    (isNorthTieAndFromNorthbound : TIEPacket → Bool)
    (lsdbReplace : List (TIEID × TIEPacket) → TIEPacket → TIEHeader →
      List (TIEID × TIEPacket))
    (isOriginator : Bool) (s : TieStateMachine) (lastProcessed : TIEID)
    (txKeys : List TIEHeader) (reqKeys : List TIEHeaderWithLifeTime)
    (clearKeys : List TIEHeader) :
    List TIEHeaderWithLifeTime →
    Except String
      (TieStateMachine × TIEID × List TIEHeader × List TIEHeaderWithLifeTime ×
        List TIEHeader)
  | [] => .ok (s, lastProcessed, txKeys, reqKeys, clearKeys)
  | tideHeader :: rest =>
    -- 1. DBTIE = find HEADER in current LSDB
    let dbTie := find s.lsDb tideHeader.header
    -- 2. if HEADER < LASTPROCESSED then report error and return
    if TIEID.lt tideHeader.header.tieid lastProcessed then
      .error "HEADER < LASTPROCESSED"
    else
      -- 3. put all LSDB headers strictly between LASTPROCESSED and HEADER
      --    into TXKEYS
      let txKeys := txKeys ++
        ((s.lsDb.filter (fun p =>
            TIEID.lt lastProcessed p.2.header.tieid &&
              TIEID.lt p.2.header.tieid tideHeader.header.tieid)).map
          (fun p => p.2.header))
      -- 4. LASTPROCESSED = HEADER
      let lastProcessed := tideHeader.header.tieid
      match dbTie with
      | none =>
        -- 5. DBTIE not found
        if isOriginator then
          processTideLoop find bumpOwnTie tieHasContent
            isNorthTieAndFromNorthbound lsdbReplace isOriginator
            (bumpOwnTie s tideHeader.header) lastProcessed txKeys reqKeys
            clearKeys rest
        else
          processTideLoop find bumpOwnTie tieHasContent
            isNorthTieAndFromNorthbound lsdbReplace isOriginator s
            lastProcessed txKeys (reqKeys ++ [tideHeader]) clearKeys rest
      | some dbTie =>
        -- 6. DBTIE.HEADER < HEADER
        if TIEHeader.lt dbTie.header tideHeader.header then
          if isOriginator then
            processTideLoop find bumpOwnTie tieHasContent
              isNorthTieAndFromNorthbound lsdbReplace isOriginator
              (bumpOwnTie s tideHeader.header) lastProcessed txKeys reqKeys
              clearKeys rest
          else
            if isNorthTieAndFromNorthbound dbTie then
              processTideLoop find bumpOwnTie tieHasContent
                isNorthTieAndFromNorthbound lsdbReplace isOriginator
                { s with lsDb := lsdbReplace s.lsDb dbTie tideHeader.header }
                lastProcessed txKeys reqKeys clearKeys rest
            else
              processTideLoop find bumpOwnTie tieHasContent
                isNorthTieAndFromNorthbound lsdbReplace isOriginator s
                lastProcessed txKeys (reqKeys ++ [tideHeader]) clearKeys rest
        -- 7. DBTIE.HEADER > HEADER
        else if TIEHeader.lt tideHeader.header dbTie.header then
          processTideLoop find bumpOwnTie tieHasContent
            isNorthTieAndFromNorthbound lsdbReplace isOriginator s
            lastProcessed (txKeys ++ [dbTie.header]) reqKeys clearKeys rest
        -- 8. DBTIE.HEADER = HEADER
        else
          if tieHasContent dbTie then
            processTideLoop find bumpOwnTie tieHasContent
              isNorthTieAndFromNorthbound lsdbReplace isOriginator s
              lastProcessed txKeys reqKeys (clearKeys ++ [dbTie.header]) rest
          else
            processTideLoop find bumpOwnTie tieHasContent
              isNorthTieAndFromNorthbound lsdbReplace isOriginator s
              lastProcessed txKeys (reqKeys ++ [tideHeader]) clearKeys rest

/-- process_tide (src/src/tie_exchange.rs lines 204-312).  The outcome is
none when a todo panic is reached, some (error e) on the protocol error
return, and some (ok state) otherwise.  Note the faithful detail at step c
(source line 292): the comparison against tide.end_range is strict, although
the comment above it (and the spec) give the closed bound TIE.HEADER <=
TIDE.end_range. -/
def TieStateMachine.processTide
    (find : List (TIEID × TIEPacket) → TIEHeader → Option TIEPacket)
    (bumpOwnTie : TieStateMachine → TIEHeader → TieStateMachine)
    (tieHasContent : TIEPacket → Bool)
    (isNorthTieAndFromNorthbound : TIEPacket → Bool)
    (lsdbReplace : List (TIEID × TIEPacket) → TIEPacket → TIEHeader →
      List (TIEID × TIEPacket))
    (floodFiltered requestFiltered : TIEHeader → Bool) (isOriginator : Bool)
    (s : TieStateMachine) (tide : TIDEPacket) :
    Option (Except String TieStateMachine) :=
  match processTideLoop find bumpOwnTie tieHasContent
      isNorthTieAndFromNorthbound lsdbReplace isOriginator s tide.startRange
      [] [] [] tide.headers with
  | .error e => some (.error e)
  | .ok (s, lastProcessed, txKeys, reqKeys, clearKeys) =>
    -- c. put all LSDB headers above LASTPROCESSED and (strictly, see above)
    --    below tide.end_range into TXKEYS
    let txKeys := txKeys ++
      ((s.lsDb.filter (fun p =>
          TIEID.lt lastProcessed p.2.header.tieid &&
            TIEID.lt p.2.header.tieid tide.endRange)).map (fun p => p.2.header))
    -- d. try_to_transmit_tie for every TXKEYS entry
    match txKeys.foldlM
        (fun acc tie => acc.tryToTransmitTie floodFiltered tie) s with
    | none => none
    | some s =>
      -- e. request_tie for every REQKEYS entry
      let s := reqKeys.foldl
        (fun acc tie => acc.requestTie requestFiltered tie.header) s
      -- f. remove_from_all_queues for every CLEARKEYS entry
      let s := clearKeys.foldl (fun acc tie => acc.removeFromAllQueues tie) s
      some (.ok s)

/-- Two queues share no TIEID. -/
def tieidDisjoint (a b : List TIEHeader) : Bool :=
  a.all (fun x => b.all (fun y => x.tieid ≠ y.tieid))

/-- Every TIEID appears in at most one of the four queues TX, ACK, REQ,
RTX. -/
def queuesDisjointByTieid (s : TieStateMachine) : Bool :=
  tieidDisjoint s.transmitTies s.acknoledgeTies &&
    tieidDisjoint s.transmitTies s.requestedTies &&
    tieidDisjoint s.transmitTies s.retransmitTies &&
    tieidDisjoint s.acknoledgeTies s.requestedTies &&
    tieidDisjoint s.acknoledgeTies s.retransmitTies &&
    tieidDisjoint s.requestedTies s.retransmitTies

/-! Well-formedness predicates recording the bounds the Rust field types
already enforce, and the legality condition under which the outer envelope
round-trips. -/

/-- Rust-representable packet number wire value: a Value payload is a u16,
and (matching the From conversions of src/src/packet.rs) is distinct from
the reserved undefined wire value. -/
def PacketNumber.wf : PacketNumber → Prop
  | .undefined => True
  | .value v => v ≠ UNDEFINED_PACKET_NUMBER ∧ v < 65536

instance (p : PacketNumber) : Decidable p.wf := by
  cases p <;> simp [PacketNumber.wf] <;> infer_instance

/-- Key id representable in the 8-bit outer_key_id wire field: Invalid, or a
non-zero id below 256. -/
def KeyID.wfU8 : KeyID → Prop
  | .invalid => True
  | .valid id => 0 < id ∧ id < 256

instance (k : KeyID) : Decidable k.wfU8 := by
  cases k <;> simp [KeyID.wfU8] <;> infer_instance

/-- Representable remaining_tie_lifetime: absent, or a u32 distinct from the
all-ones sentinel. -/
def lifetimeWf : Option Nat → Prop
  | none => True
  | some l => l < 4294967296 ∧ l ≠ LIFETIME_SENTINEL

instance (o : Option Nat) : Decidable (lifetimeWf o) := by
  cases o <;> simp [lifetimeWf] <;> infer_instance

/-- Legal outer security envelope header: all fields within their Rust type
bounds and representable on the wire (major version equal to the protocol
constant, key id within 8 bits, fingerprint length a multiple of 4 whose
4-byte-unit count fits the length byte, packet number distinct from the
undefined wire value, lifetime below 2^32 and distinct from the all-ones
sentinel). -/
abbrev legalOuterEnvelope (h : OuterSecurityEnvelopeHeader) : Prop :=
  h.packetNumber.wf ∧
  h.majorVersion = PROTOCOL_MAJOR_VERSION ∧
  h.outerKeyId.wfU8 ∧
  h.weakNonceLocal.wf ∧
  h.weakNonceRemote.wf ∧
  h.securityFingerprint.length % 4 = 0 ∧
  h.securityFingerprint.length < 1024 ∧
  lifetimeWf h.remainingTieLifetime

/-! Named concrete inputs used by the counterexample, divergence and witness
theorems below. -/

/-- LIE state machine state with leaf level 0 and HAT 5 (C1). -/
def c1State : LieStateMachine :=
  { lieState := .oneWay
    chainedEventQueue := []
    level := .value 0
    highestAvailableLevel := .undefined
    highestAdjacencyThreeway := .value 5
    neighbor := none
    lastValidLie := none }

/-- Incoming LIE header at level 5 from sender 7 (C1). -/
def c1Header : PacketHeader :=
  { majorVersion := 6, minorVersion := 0, sender := 7, level := some 5 }

/-- Incoming LIE body with matching MTU 1500 (C1). -/
def c1Packet : LIEPacket :=
  { name := none, localId := 9, floodPort := 10, linkMtuSize := some 1500
    neighbor := none, holdtime := 3 }

/-- A single three-way offer at level 5 (C2). -/
def c2Offers : List Offer :=
  [{ level := .value 5, systemId := 1, state := .threeWay, expired := false }]

/-- TIEID at the end of the C3 TIDE range. -/
def c3EndId : TIEID := { direction := 1, originator := 1, tietype := 1, tieNr := 1 }

/-- LSDB entry whose TIEID equals the TIDE end_range (C3). -/
def c3Tie : TIEPacket :=
  { header := { tieid := c3EndId, seqNr := 1, originationTime := none
                originationLifetime := none }
    element := 0 }

/-- TIE machine holding exactly the end-range TIE in its LSDB (C3). -/
def c3Machine : TieStateMachine :=
  { transmitTies := [], acknoledgeTies := [], requestedTies := []
    retransmitTies := [], lsDb := [(c3EndId, c3Tie)] }

/-- TIDE with no headers whose range ends exactly at the LSDB entry (C3). -/
def c3Tide : TIDEPacket :=
  { startRange := { direction := 0, originator := 0, tietype := 0, tieNr := 0 }
    endRange := c3EndId
    headers := [] }

/-- Outer envelope with a wrong major version but legal per the claim's
parenthetical conditions (C4). -/
def c4BadMajor : OuterSecurityEnvelopeHeader :=
  { packetNumber := .value 2, majorVersion := 0, outerKeyId := .invalid
    securityFingerprint := [], weakNonceLocal := .valid 1
    weakNonceRemote := .valid 2, remainingTieLifetime := none }

/-- Outer envelope whose key id exceeds the 8-bit wire field (C4). -/
def c4BadKeyId : OuterSecurityEnvelopeHeader :=
  { c4BadMajor with majorVersion := 6, outerKeyId := .valid 256 }

/-- Outer envelope whose packet number Value equals the undefined wire
value (C4). -/
def c4BadPacketNumber : OuterSecurityEnvelopeHeader :=
  { c4BadMajor with majorVersion := 6, packetNumber := .value 0 }

/-- Outer envelope whose fingerprint length 1024 overflows the length
byte (C4). -/
def c4BadFingerprint : OuterSecurityEnvelopeHeader :=
  { c4BadMajor with majorVersion := 6, securityFingerprint := List.replicate 1024 7 }

/-- A legal outer envelope used by witnesses (C4, C10). -/
def c4GoodHeader : OuterSecurityEnvelopeHeader :=
  { packetNumber := .value 2, majorVersion := 6, outerKeyId := .valid 3
    securityFingerprint := [9, 8, 7, 6], weakNonceLocal := .valid 0x7e5c
    weakNonceRemote := .valid 0x39c0, remainingTieLifetime := some 604800 }

/-- Captured-shape byte vector whose outer envelope carries key id 0 and a
remaining lifetime, followed by a TIE-origin envelope with the valid key id
1 and an empty fingerprint (C5). -/
def c5Bytes : List Byte :=
  [0xa1, 0xf7, 0x00, 0x02, 0x00, 0x06, 0x00, 0x00, 0x7e, 0x5c, 0x39, 0xc0,
   0x00, 0x09, 0x3a, 0x80, 0x00, 0x00, 0x01, 0x00]

/-- Byte vector whose outer and TIE-origin envelopes both carry key id 0
together with non-empty fingerprints (C9). -/
def c9Bytes : List Byte :=
  [0xa1, 0xf7, 0x00, 0x02, 0x00, 0x06, 0x00, 0x01, 0xde, 0xad, 0xbe, 0xef,
   0x7e, 0x5c, 0x39, 0xc0, 0x00, 0x09, 0x3a, 0x80, 0x00, 0x00, 0x00, 0x01,
   0xca, 0xfe, 0xba, 0xbe, 0x2a]

/-- TIE header living only in the retransmit queue (C7). -/
def c7Header : TIEHeader :=
  { tieid := { direction := 1, originator := 1, tietype := 2, tieNr := 1 }
    seqNr := 1, originationTime := none, originationLifetime := none }

/-- TIE machine whose queues are disjoint: the header sits in TIES_RTX
only (C7). -/
def c7Machine : TieStateMachine :=
  { transmitTies := [], acknoledgeTies := [], requestedTies := []
    retransmitTies := [c7Header], lsDb := [] }

/-! Helper lemmas about byte accesses relative to a computed drop, and the
round-trip behaviour of the primitive encoders. -/

theorem get_u8_of_drop {l : List Byte} {n : Nat} {b0 : Byte} {rest : List Byte}
    (h : l.drop n = b0 :: rest) : get_u8 l n = .ok b0 := by
  have h0 := List.getElem?_drop l n 0
  rw [h] at h0
  simp only [List.getElem?_cons_zero, Nat.add_zero] at h0
  simp [get_u8, ← h0]

theorem get_u16_of_drop {l : List Byte} {n : Nat} {b0 b1 : Byte}
    {rest : List Byte} (h : l.drop n = b0 :: b1 :: rest) :
    get_u16 l n = .ok (b0 * 256 + b1) := by
  have h0 := List.getElem?_drop l n 0
  have h1 := List.getElem?_drop l n 1
  rw [h] at h0 h1
  simp only [List.getElem?_cons_zero, List.getElem?_cons_succ, Nat.add_zero] at h0 h1
  simp [get_u16, ← h0, ← h1]

theorem get_u32_of_drop {l : List Byte} {n : Nat} {b0 b1 b2 b3 : Byte}
    {rest : List Byte} (h : l.drop n = b0 :: b1 :: b2 :: b3 :: rest) :
    get_u32 l n = .ok (b0 * 16777216 + b1 * 65536 + b2 * 256 + b3) := by
  have h0 := List.getElem?_drop l n 0
  have h1 := List.getElem?_drop l n 1
  have h2 := List.getElem?_drop l n 2
  have h3 := List.getElem?_drop l n 3
  rw [h] at h0 h1 h2 h3
  simp only [List.getElem?_cons_zero, List.getElem?_cons_succ, Nat.add_zero] at h0 h1 h2 h3
  simp [get_u32, ← h0, ← h1, ← h2, ← h3]

theorem PacketNumber.pn_bytes_roundtrip (p : PacketNumber) (hp : p.wf) :
    ∃ b0 b1, u16Bytes p.toU16 = [b0, b1] ∧ PacketNumber.ofU16 (b0 * 256 + b1) = p := by
  cases p with
  | undefined => exact ⟨0, 0, rfl, rfl⟩
  | value v =>
    have hv : v ≠ UNDEFINED_PACKET_NUMBER ∧ v < 65536 := hp
    refine ⟨v / 256 % 256, v % 256, rfl, ?_⟩
    have hrec : v / 256 % 256 * 256 + v % 256 = v := by omega
    rw [hrec, PacketNumber.ofU16, if_neg hv.1]

theorem Nonce.nonce_bytes_roundtrip (n : Nonce) (hn : n.wf) :
    ∃ b0 b1, n.toBeBytes = [b0, b1] ∧ Nonce.ofU16 (b0 * 256 + b1) = n := by
  cases n with
  | invalid => exact ⟨0, 0, rfl, rfl⟩
  | valid v =>
    have hv : 0 < v ∧ v < 65536 := hn
    refine ⟨v / 256 % 256, v % 256, rfl, ?_⟩
    have hrec : v / 256 % 256 * 256 + v % 256 = v := by omega
    rw [hrec, Nonce.ofU16, if_neg (by simp [UNDEFINED_NONCE]; omega)]

theorem u32Bytes_roundtrip (v : Nat) (hv : v < 4294967296) :
    ∃ b0 b1 b2 b3 : Nat, u32Bytes v = [b0, b1, b2, b3] ∧
      b0 * 16777216 + b1 * 65536 + b2 * 256 + b3 = v := by
  refine ⟨v / 16777216 % 256, v / 65536 % 256, v / 256 % 256, v % 256, rfl, ?_⟩
  omega

theorem KeyID.ofU32_byte (k : KeyID) (hk : k.wfU8) :
    KeyID.ofU32 (match k with | .invalid => 0 | .valid id => id % 256) = k := by
  cases k with
  | invalid => rfl
  | valid id =>
    have hk' : 0 < id ∧ id < 256 := hk
    show KeyID.ofU32 (id % 256) = KeyID.valid id
    rw [Nat.mod_eq_of_lt hk'.2, KeyID.ofU32,
      if_neg (by simp [INVALID_KEY_VALUE_KEY]; omega)]

/-! Claim theorems. -/

/-- C1: In PROCESS_LIE with both levels defined and the local node at leaf
level, the spec accepts the header iff the HAT is undefined or the remote
level equals the HAT.  The code does the opposite on a defined HAT: at local
level 0 (leaf), HAT 5 and remote level 5 it rejects (CLEANUP and the events
UpdateZTPOffer then UnacceptableHeader), while at remote level 4 (different
from the HAT) it accepts and proceeds to step 5 (UpdateZTPOffer then
NewNeighbor, neighbor recorded). -/
theorem c1_leaf_hat_check_eval :
    ((c1State.processLieProcedure 0 c1Header c1Packet 1 2 1500).chainedEventQueue =
        [.updateZTPOffer, .unacceptableHeader] ∧
      (c1State.processLieProcedure 0 c1Header c1Packet 1 2 1500).neighbor = none) ∧
    ((c1State.processLieProcedure 0 { c1Header with level := some 4 } c1Packet
          1 2 1500).chainedEventQueue = [.updateZTPOffer, .newNeighbor] ∧
      (c1State.processLieProcedure 0 { c1Header with level := some 4 } c1Packet
          1 2 1500).neighbor ≠ none) ∧
    c1State.level = .value LEAF_LEVEL ∧
    c1State.highestAdjacencyThreeway = .value 5 ∧
    c1Header.level = some 5 := by
  refine ⟨⟨by decide, by decide⟩, ⟨by decide, by decide⟩, rfl, rfl, rfl⟩

/-- C2 counterexample: with a single ThreeWay offer at level 5 and both the
stored HAL and the stored HAT equal to 5, the computed best HAL and best HAT
both equal the stored values, yet COMPARE_OFFERS still emits LostHAL and
LostHAT — the claim says no HAL/HAT event is emitted in this case. -/
theorem c2_counterexample :
    levelListMax (c2Offers.map (·.level)) = some (.value 5) ∧
    levelListMax ((c2Offers.filter
        (fun o => o.state = LieState.threeWay)).map (·.level)) = some (.value 5) ∧
    (compareOffers c2Offers (.value 5) (.value 5)).1 = [.lostHAL, .lostHAT] := by
  refine ⟨by decide, by decide, by decide⟩

/-- C2 amended: COMPARE_OFFERS always emits exactly one HAL event and one
HAT event.  BetterHAL is emitted iff the best HAL over all offers is defined
and differs from the stored HAL, and LostHAL otherwise (including when the
best equals the stored value); analogously BetterHAT/LostHAT with the best
level over offers whose observed LIE state is ThreeWay. -/
theorem c2_compare_offers_events (offers : List Offer) (hal hat : Level) :
    (compareOffers offers hal hat).1.length = 2 ∧
    (ZtpEvent.betterHAL ∈ (compareOffers offers hal hat).1 ↔
      ∃ l, levelListMax (offers.map (·.level)) = some l ∧ hal ≠ l) ∧
    (ZtpEvent.lostHAL ∈ (compareOffers offers hal hat).1 ↔
      ¬∃ l, levelListMax (offers.map (·.level)) = some l ∧ hal ≠ l) ∧
    (ZtpEvent.betterHAT ∈ (compareOffers offers hal hat).1 ↔
      ∃ l, levelListMax ((offers.filter
          (fun o => o.state = LieState.threeWay)).map (·.level)) = some l ∧ hat ≠ l) ∧
    (ZtpEvent.lostHAT ∈ (compareOffers offers hal hat).1 ↔
      ¬∃ l, levelListMax ((offers.filter
          (fun o => o.state = LieState.threeWay)).map (·.level)) = some l ∧ hat ≠ l) := by
  unfold compareOffers
  rcases hB : levelListMax (offers.map (·.level)) with _ | lB <;>
    rcases hH : levelListMax ((offers.filter
        (fun o => o.state = LieState.threeWay)).map (·.level)) with _ | lH
  · simp [hB, hH]
  · by_cases hhat : hat = lH <;> simp [hB, hH, hhat]
  · by_cases hhal : hal = lB <;> simp [hB, hH, hhal]
  · by_cases hhal : hal = lB <;> by_cases hhat : hat = lH <;>
      simp [hB, hH, hhal, hhat]

/-- C3: after a TIDE with no headers whose end_range equals the TIEID of the
only LSDB entry, process_tide completes without error but leaves the machine
unchanged — the entry at end_range is never appended to TXKEYS nor passed to
try_to_transmit_tie, for every instantiation of the unimplemented helper
functions — although the entry lies in the half-open interval
(LASTPROCESSED, end_range] that the spec floods. -/
theorem c3_end_range_eval :
    (∀ find bumpOwnTie tieHasContent isNorthTieAndFromNorthbound lsdbReplace
        floodFiltered requestFiltered isOriginator,
      TieStateMachine.processTide find bumpOwnTie tieHasContent
          isNorthTieAndFromNorthbound lsdbReplace floodFiltered requestFiltered
          isOriginator c3Machine c3Tide = some (.ok c3Machine)) ∧
    TIEID.lt c3Tide.startRange c3Tie.header.tieid = true ∧
    c3Tie.header.tieid = c3Tide.endRange ∧
    c3Machine.lsDb = [(c3Tie.header.tieid, c3Tie)] ∧
    c3Machine.transmitTies = [] := by
  exact ⟨fun _ _ _ _ _ _ _ _ => rfl, by decide, rfl, rfl, rfl⟩

/-- C5: on a packet whose outer envelope parses and validates (key id 0) and
carries a remaining lifetime, and whose TIE-origin envelope parses with the
valid key id 1 but fails fingerprint validation (empty keystore),
parse_and_validate fails with InvalidOuterEnvelope — not with the
InvalidTIEEnvelope the claim (and the error taxonomy) prescribe. -/
theorem c5_tie_envelope_error_eval :
    (∀ (fp : FingerprintFn) (decode : List Byte → Except ParsingError Nat),
      parseAndValidate fp decode c5Bytes { secrets := [] } =
        .error .invalidOuterEnvelope) ∧
    TIEOriginSecurityEnvelopeHeader.parsePacket (c5Bytes.drop 16) =
      .ok ({ tieOriginKeyId := .valid 1, securityFingerprint := [] }, []) ∧
    (∀ fp, TIEOriginSecurityEnvelopeHeader.validate fp
        { tieOriginKeyId := .valid 1, securityFingerprint := [] }
        { secrets := [] } [] = false) ∧
    ParsingError.invalidOuterEnvelope ≠ ParsingError.invalidTIEEnvelope := by
  exact ⟨fun _ _ => rfl, rfl, fun _ => rfl, by decide⟩

/-- C6: incrementing a valid (non-zero u16) nonce by any u16 delta is defined
(no panic: the NonZeroU16 unwrap never fails) and yields a valid nonce that
is never the reserved invalid value; when the wrapped sum would equal the
reserved value the result skips to the next value.  Overflow follows the
wrap-around (release-mode) semantics of Rust addition, modelled explicitly
modulo 2^16. -/
theorem c6_nonce_add_valid (v d : Nat) (hv : Nonce.wf (.valid v))
    (hd : d < 65536) :
    ∃ w, Nonce.addU16 (.valid v) d = some (.valid w) ∧ 0 < w ∧ w < 65536 ∧
      w ≠ UNDEFINED_NONCE ∧
      ((v + d) % 65536 = UNDEFINED_NONCE → w = ((v + d) % 65536 + 1) % 65536) ∧
      ((v + d) % 65536 ≠ UNDEFINED_NONCE → w = (v + d) % 65536) := by
  have hv' : 0 < v ∧ v < 65536 := hv
  by_cases hz : (v + d) % 65536 = 0
  · refine ⟨1, ?_, by omega, by omega, by simp [UNDEFINED_NONCE],
      fun _ => by omega, fun hcon => absurd hz (by simpa [UNDEFINED_NONCE] using hcon)⟩
    simp [Nonce.addU16, UNDEFINED_NONCE, hz]
  · refine ⟨(v + d) % 65536, ?_, by omega, by
        have := Nat.mod_lt (v + d) (show 0 < 65536 by omega); omega,
      by simpa [UNDEFINED_NONCE] using hz,
      fun hcon => absurd (by simpa [UNDEFINED_NONCE] using hcon) hz, fun _ => rfl⟩
    simp [Nonce.addU16, UNDEFINED_NONCE, hz]

/-- C6 witness: incrementing the largest valid nonce by 1 wraps past the
reserved value and yields the valid nonce 1. -/
theorem c6_nonce_add_valid_witness :
    Nonce.wf (.valid 65535) ∧ (1 : Nat) < 65536 ∧
      ∃ w, Nonce.addU16 (.valid 65535) 1 = some (.valid w) ∧ 0 < w ∧
        w < 65536 ∧ w ≠ UNDEFINED_NONCE ∧
        ((65535 + 1) % 65536 = UNDEFINED_NONCE → w = ((65535 + 1) % 65536 + 1) % 65536) ∧
        ((65535 + 1) % 65536 ≠ UNDEFINED_NONCE → w = (65535 + 1) % 65536) :=
  ⟨by decide, by decide, c6_nonce_add_valid 65535 1 (by decide) (by decide)⟩

/-- C7: starting from queues that are pairwise disjoint by TIEID (the header
sits only in TIES_RTX), try_to_transmit_tie with an accepting flood filter
completes and leaves the header in both TIES_RTX and TIES_TX: the source
removes from TIES_REQ where its own comment says TIES_RTX, so the resulting
state violates the at-most-one-queue-per-TIEID property. -/
theorem c7_queue_disjoint_eval :
    queuesDisjointByTieid c7Machine = true ∧
    c7Machine.tryToTransmitTie (fun _ => false) c7Header =
      some { c7Machine with transmitTies := [c7Header] } ∧
    (c7Machine.tryToTransmitTie (fun _ => false) c7Header).map
      queuesDisjointByTieid = some false := by
  exact ⟨by decide, by decide, by decide⟩

/-- C9: an envelope whose key id is Invalid (wire value 0) passes fingerprint
validation for every keystore, payload and fingerprint bytes, for both the
outer and the TIE-origin envelope; and a concrete packet carrying key id 0
in both envelopes together with non-empty fingerprints passes both checks of
parse_and_validate and reaches the body decoder. -/
theorem c9_invalid_key_validate :
    (∀ (fp : FingerprintFn) (ks : SecretKeyStore) (payload : List Byte)
        (pn : PacketNumber) (mv : Nat) (fpr : List Byte) (nl nr : Nonce)
        (rtl : Option Nat),
      OuterSecurityEnvelopeHeader.validate fp
        { packetNumber := pn, majorVersion := mv, outerKeyId := .invalid
          securityFingerprint := fpr, weakNonceLocal := nl
          weakNonceRemote := nr, remainingTieLifetime := rtl } ks payload = true) ∧
    (∀ (fp : FingerprintFn) (ks : SecretKeyStore) (payload fpr : List Byte),
      TIEOriginSecurityEnvelopeHeader.validate fp
        { tieOriginKeyId := .invalid, securityFingerprint := fpr } ks payload = true) ∧
    (∀ (fp : FingerprintFn) (ks : SecretKeyStore)
        (decode : List Byte → Except ParsingError Nat),
      parseAndValidate fp decode c9Bytes ks = decode [0x2a]) :=
  ⟨fun _ _ _ _ _ _ _ _ _ => rfl, fun _ _ _ _ => rfl, fun _ _ _ => rfl⟩



/-- Helper: parsing a byte list in the shape produced by write — the eight
fixed header bytes, a fingerprint whose length matches the length byte, the
two nonces, the lifetime and the payload — succeeds and recovers each
field through the From-u16/u32 conversions. -/
theorem parsePacket_cons (p0 p1 kb flb : Nat) (fpr payload : List Byte)
    (n0 n1 m0 m1 l0 l1 l2 l3 : Byte)
    (hflb : flb * 4 = fpr.length) :
    OuterSecurityEnvelopeHeader.parsePacket
        (0xa1 :: 0xf7 :: p0 :: p1 :: 0 :: PROTOCOL_MAJOR_VERSION :: kb :: flb ::
          (fpr ++ (n0 :: n1 :: m0 :: m1 :: l0 :: l1 :: l2 :: l3 :: payload))) =
      .ok ({ packetNumber := PacketNumber.ofU16 (p0 * 256 + p1)
             majorVersion := PROTOCOL_MAJOR_VERSION
             outerKeyId := KeyID.ofU32 kb
             securityFingerprint := fpr
             weakNonceLocal := Nonce.ofU16 (n0 * 256 + n1)
             weakNonceRemote := Nonce.ofU16 (m0 * 256 + m1)
             remainingTieLifetime :=
               if l0 * 16777216 + l1 * 65536 + l2 * 256 + l3 = LIFETIME_SENTINEL
               then none
               else some (l0 * 16777216 + l1 * 65536 + l2 * 256 + l3) },
           payload,
           n0 :: n1 :: m0 :: m1 :: l0 :: l1 :: l2 :: l3 :: payload) := by
  have hdMid : (0xa1 :: 0xf7 :: p0 :: p1 :: 0 :: PROTOCOL_MAJOR_VERSION :: kb :: flb ::
        (fpr ++ (n0 :: n1 :: m0 :: m1 :: l0 :: l1 :: l2 :: l3 :: payload))).drop
          (8 + fpr.length) =
      n0 :: n1 :: m0 :: m1 :: l0 :: l1 :: l2 :: l3 :: payload := by
    have h1 := List.drop_drop fpr.length 8 (0xa1 :: 0xf7 :: p0 :: p1 :: 0 ::
      PROTOCOL_MAJOR_VERSION :: kb :: flb ::
        (fpr ++ (n0 :: n1 :: m0 :: m1 :: l0 :: l1 :: l2 :: l3 :: payload)))
    rw [← h1]
    exact List.drop_left' rfl
  have hdMid2 : (0xa1 :: 0xf7 :: p0 :: p1 :: 0 :: PROTOCOL_MAJOR_VERSION :: kb :: flb ::
        (fpr ++ (n0 :: n1 :: m0 :: m1 :: l0 :: l1 :: l2 :: l3 :: payload))).drop
          (8 + fpr.length + 2) =
      m0 :: m1 :: l0 :: l1 :: l2 :: l3 :: payload := by
    have h1 := List.drop_drop 2 (8 + fpr.length) (0xa1 :: 0xf7 :: p0 :: p1 :: 0 ::
      PROTOCOL_MAJOR_VERSION :: kb :: flb ::
        (fpr ++ (n0 :: n1 :: m0 :: m1 :: l0 :: l1 :: l2 :: l3 :: payload)))
    rw [← h1, hdMid]
    rfl
  have hdMid4 : (0xa1 :: 0xf7 :: p0 :: p1 :: 0 :: PROTOCOL_MAJOR_VERSION :: kb :: flb ::
        (fpr ++ (n0 :: n1 :: m0 :: m1 :: l0 :: l1 :: l2 :: l3 :: payload))).drop
          (8 + fpr.length + 4) =
      l0 :: l1 :: l2 :: l3 :: payload := by
    have h1 := List.drop_drop 4 (8 + fpr.length) (0xa1 :: 0xf7 :: p0 :: p1 :: 0 ::
      PROTOCOL_MAJOR_VERSION :: kb :: flb ::
        (fpr ++ (n0 :: n1 :: m0 :: m1 :: l0 :: l1 :: l2 :: l3 :: payload)))
    rw [← h1, hdMid]
    rfl
  have hdPay : (0xa1 :: 0xf7 :: p0 :: p1 :: 0 :: PROTOCOL_MAJOR_VERSION :: kb :: flb ::
        (fpr ++ (n0 :: n1 :: m0 :: m1 :: l0 :: l1 :: l2 :: l3 :: payload))).drop
          (8 + fpr.length + 8) = payload := by
    have h1 := List.drop_drop 8 (8 + fpr.length) (0xa1 :: 0xf7 :: p0 :: p1 :: 0 ::
      PROTOCOL_MAJOR_VERSION :: kb :: flb ::
        (fpr ++ (n0 :: n1 :: m0 :: m1 :: l0 :: l1 :: l2 :: l3 :: payload)))
    rw [← h1, hdMid]
    rfl
  have h0 : get_u16 (0xa1 :: 0xf7 :: p0 :: p1 :: 0 :: PROTOCOL_MAJOR_VERSION :: kb :: flb ::
      (fpr ++ (n0 :: n1 :: m0 :: m1 :: l0 :: l1 :: l2 :: l3 :: payload))) 0 =
      .ok (0xa1 * 256 + 0xf7) := get_u16_of_drop rfl
  have h2 : get_u16 (0xa1 :: 0xf7 :: p0 :: p1 :: 0 :: PROTOCOL_MAJOR_VERSION :: kb :: flb ::
      (fpr ++ (n0 :: n1 :: m0 :: m1 :: l0 :: l1 :: l2 :: l3 :: payload))) 2 =
      .ok (p0 * 256 + p1) := get_u16_of_drop rfl
  have h4 : get_u8 (0xa1 :: 0xf7 :: p0 :: p1 :: 0 :: PROTOCOL_MAJOR_VERSION :: kb :: flb ::
      (fpr ++ (n0 :: n1 :: m0 :: m1 :: l0 :: l1 :: l2 :: l3 :: payload))) 4 =
      .ok 0 := get_u8_of_drop rfl
  have h5 : get_u8 (0xa1 :: 0xf7 :: p0 :: p1 :: 0 :: PROTOCOL_MAJOR_VERSION :: kb :: flb ::
      (fpr ++ (n0 :: n1 :: m0 :: m1 :: l0 :: l1 :: l2 :: l3 :: payload))) 5 =
      .ok PROTOCOL_MAJOR_VERSION := get_u8_of_drop rfl
  have h6 : get_u8 (0xa1 :: 0xf7 :: p0 :: p1 :: 0 :: PROTOCOL_MAJOR_VERSION :: kb :: flb ::
      (fpr ++ (n0 :: n1 :: m0 :: m1 :: l0 :: l1 :: l2 :: l3 :: payload))) 6 =
      .ok kb := get_u8_of_drop rfl
  have h7 : get_u8 (0xa1 :: 0xf7 :: p0 :: p1 :: 0 :: PROTOCOL_MAJOR_VERSION :: kb :: flb ::
      (fpr ++ (n0 :: n1 :: m0 :: m1 :: l0 :: l1 :: l2 :: l3 :: payload))) 7 =
      .ok flb := get_u8_of_drop rfl
  have hn : get_u16 (0xa1 :: 0xf7 :: p0 :: p1 :: 0 :: PROTOCOL_MAJOR_VERSION :: kb :: flb ::
      (fpr ++ (n0 :: n1 :: m0 :: m1 :: l0 :: l1 :: l2 :: l3 :: payload))) (8 + fpr.length) =
      .ok (n0 * 256 + n1) := get_u16_of_drop hdMid
  have hm : get_u16 (0xa1 :: 0xf7 :: p0 :: p1 :: 0 :: PROTOCOL_MAJOR_VERSION :: kb :: flb ::
      (fpr ++ (n0 :: n1 :: m0 :: m1 :: l0 :: l1 :: l2 :: l3 :: payload))) (8 + fpr.length + 2) =
      .ok (m0 * 256 + m1) := get_u16_of_drop hdMid2
  have hl : get_u32 (0xa1 :: 0xf7 :: p0 :: p1 :: 0 :: PROTOCOL_MAJOR_VERSION :: kb :: flb ::
      (fpr ++ (n0 :: n1 :: m0 :: m1 :: l0 :: l1 :: l2 :: l3 :: payload))) (8 + fpr.length + 4) =
      .ok (l0 * 16777216 + l1 * 65536 + l2 * 256 + l3) := get_u32_of_drop hdMid4
  have hslice : getSlice (0xa1 :: 0xf7 :: p0 :: p1 :: 0 :: PROTOCOL_MAJOR_VERSION :: kb :: flb ::
      (fpr ++ (n0 :: n1 :: m0 :: m1 :: l0 :: l1 :: l2 :: l3 :: payload))) 8 (8 + fpr.length) =
      some fpr := by
    unfold getSlice
    rw [if_pos (by simp; omega)]
    rw [Nat.add_sub_cancel_left]
    show some ((fpr ++ (n0 :: n1 :: m0 :: m1 :: l0 :: l1 :: l2 :: l3 :: payload)).take
      fpr.length) = some fpr
    rw [List.take_left' rfl]
  simp [OuterSecurityEnvelopeHeader.parsePacket, h0, h2, h4, h5, h6, h7, hflb,
    hn, hm, hl, hslice, hdMid, hdPay]


/-- Helper: parse inverts write on a legal outer envelope followed by any
payload, returning the header, the payload, and the nonces-and-lifetime
slice covered by fingerprint validation. -/
theorem outer_parse_write_ok (h : OuterSecurityEnvelopeHeader)
    (payload : List Byte) (hleg : legalOuterEnvelope h) :
    OuterSecurityEnvelopeHeader.parsePacket (h.write ++ payload) =
      .ok (h, payload,
        h.weakNonceLocal.toBeBytes ++ h.weakNonceRemote.toBeBytes ++
          u32Bytes (match h.remainingTieLifetime with
            | some lifetime => lifetime
            | none => LIFETIME_SENTINEL) ++ payload) := by
  obtain ⟨pn, mv, kid, fpr, nl, nr, rtl⟩ := h
  obtain ⟨hpn, hmv, hkid, hnl, hnr, hmod, hlen, hrtl⟩ := hleg
  dsimp only [] at hpn hmv hkid hnl hnr hmod hlen hrtl
  subst hmv
  obtain ⟨p0, p1, hpB, hpR⟩ := PacketNumber.pn_bytes_roundtrip pn hpn
  obtain ⟨n0, n1, hnB, hnR⟩ := Nonce.nonce_bytes_roundtrip nl hnl
  obtain ⟨m0, m1, hmB, hmR⟩ := Nonce.nonce_bytes_roundtrip nr hnr
  have hLlt : (match rtl with
      | some lifetime => lifetime
      | none => LIFETIME_SENTINEL) < 4294967296 := by
    rcases rtl with _ | l
    · decide
    · exact (show l < 4294967296 ∧ l ≠ LIFETIME_SENTINEL from hrtl).1
  obtain ⟨l0, l1, l2, l3, hlB, hlR⟩ := u32Bytes_roundtrip _ hLlt
  have hflb : fpr.length / 4 % 256 * 4 = fpr.length := by omega
  have hbytes :
      OuterSecurityEnvelopeHeader.write
          ⟨pn, PROTOCOL_MAJOR_VERSION, kid, fpr, nl, nr, rtl⟩ ++ payload =
        0xa1 :: 0xf7 :: p0 :: p1 :: 0 :: PROTOCOL_MAJOR_VERSION ::
          (match kid with | KeyID.invalid => 0 | KeyID.valid id => id % 256) ::
          (fpr.length / 4 % 256) ::
          (fpr ++ (n0 :: n1 :: m0 :: m1 :: l0 :: l1 :: l2 :: l3 :: payload)) := by
    simp [OuterSecurityEnvelopeHeader.write, hpB, hnB, hmB, hlB]
    cases kid <;> rfl
  rw [hbytes, parsePacket_cons _ _ _ _ _ _ _ _ _ _ _ _ _ _ hflb]
  rcases rtl with _ | l
  · simp [hpR, hnR, hmR, KeyID.ofU32_byte kid hkid, hnB, hmB, hlB, hlR]
  · have hsent : l ≠ LIFETIME_SENTINEL :=
      (show l < 4294967296 ∧ l ≠ LIFETIME_SENTINEL from hrtl).2
    simp [hpR, hnR, hmR, KeyID.ofU32_byte kid hkid, hnB, hmB, hlB, hlR, hsent]


/-- C4 counterexample: parse after write is not the identity on every
envelope meeting the claim's parenthetical conditions (fingerprint length a
multiple of 4, no lifetime sentinel).  A wrong major version fails to parse
back; a key id of 256 writes as byte 0 and parses back as Invalid; the
packet number Value 0 parses back as Undefined; a 1024-byte fingerprint
overflows the length byte and parses back empty. -/
theorem c4_counterexample :
    OuterSecurityEnvelopeHeader.parsePacket c4BadMajor.write =
        .error (.wrongMajorVersion 0) ∧
    (OuterSecurityEnvelopeHeader.parsePacket c4BadKeyId.write).toOption.map
        (fun t => t.1.outerKeyId) = some .invalid ∧
    c4BadKeyId.outerKeyId = .valid 256 ∧
    (OuterSecurityEnvelopeHeader.parsePacket c4BadPacketNumber.write).toOption.map
        (fun t => t.1.packetNumber) = some .undefined ∧
    c4BadPacketNumber.packetNumber = .value 0 ∧
    (OuterSecurityEnvelopeHeader.parsePacket c4BadFingerprint.write).toOption.map
        (fun t => t.1.securityFingerprint) = some [] ∧
    c4BadFingerprint.securityFingerprint.length = 1024 ∧
    c4BadMajor.securityFingerprint.length % 4 = 0 ∧
    c4BadKeyId.securityFingerprint.length % 4 = 0 ∧
    c4BadPacketNumber.securityFingerprint.length % 4 = 0 ∧
    c4BadFingerprint.securityFingerprint.length % 4 = 0 ∧
    c4BadMajor.remainingTieLifetime = none ∧
    c4BadKeyId.remainingTieLifetime = none ∧
    c4BadPacketNumber.remainingTieLifetime = none ∧
    c4BadFingerprint.remainingTieLifetime = none := by
  refine ⟨rfl, rfl, rfl, rfl, rfl, rfl, ?_, by decide, by decide, by decide,
    ?_, rfl, rfl, rfl, rfl⟩
  · simp [c4BadFingerprint, c4BadMajor]
  · simp [c4BadFingerprint, c4BadMajor]

/-- C4 amended: parse composed with write is the identity on every legal
outer envelope — fields within their Rust type bounds, major version equal
to the protocol constant, key id within 8 bits, fingerprint length a
multiple of 4 below 1024, packet number distinct from the undefined wire
value, and lifetime below 2^32 and distinct from the sentinel when
present — followed by any payload. -/
theorem c4_parse_write_roundtrip (h : OuterSecurityEnvelopeHeader)
    (payload : List Byte) (hleg : legalOuterEnvelope h) :
    OuterSecurityEnvelopeHeader.parsePacket (h.write ++ payload) =
      .ok (h, payload,
        h.weakNonceLocal.toBeBytes ++ h.weakNonceRemote.toBeBytes ++
          u32Bytes (match h.remainingTieLifetime with
            | some lifetime => lifetime
            | none => LIFETIME_SENTINEL) ++ payload) :=
  outer_parse_write_ok h payload hleg

/-- C4 witness: the round trip evaluated on a concrete legal envelope with
key id 3, a 4-byte fingerprint and a remaining lifetime. -/
theorem c4_parse_write_roundtrip_witness :
    legalOuterEnvelope c4GoodHeader ∧
    OuterSecurityEnvelopeHeader.parsePacket (c4GoodHeader.write ++ [1, 2, 3]) =
      .ok (c4GoodHeader, [1, 2, 3],
        c4GoodHeader.weakNonceLocal.toBeBytes ++
          c4GoodHeader.weakNonceRemote.toBeBytes ++
          u32Bytes (match c4GoodHeader.remainingTieLifetime with
            | some lifetime => lifetime
            | none => LIFETIME_SENTINEL) ++ [1, 2, 3]) :=
  ⟨by decide, c4_parse_write_roundtrip c4GoodHeader [1, 2, 3] (by decide)⟩

/-- C10: an outer envelope whose remaining_tie_lifetime is Some 0xFFFF_FFFF
writes exactly the same bytes as the None envelope (the all-ones sentinel),
so serialization is not injective, and parsing those bytes returns the None
envelope. -/
theorem c10_lifetime_sentinel (h : OuterSecurityEnvelopeHeader)
    (payload : List Byte)
    (hleg : legalOuterEnvelope { h with remainingTieLifetime := none }) :
    ({ h with remainingTieLifetime := some LIFETIME_SENTINEL } :
        OuterSecurityEnvelopeHeader).write =
      ({ h with remainingTieLifetime := none } :
        OuterSecurityEnvelopeHeader).write ∧
    OuterSecurityEnvelopeHeader.parsePacket
        (({ h with remainingTieLifetime := some LIFETIME_SENTINEL } :
          OuterSecurityEnvelopeHeader).write ++ payload) =
      .ok ({ h with remainingTieLifetime := none }, payload,
        h.weakNonceLocal.toBeBytes ++ h.weakNonceRemote.toBeBytes ++
          u32Bytes LIFETIME_SENTINEL ++ payload) := by
  have hw : ({ h with remainingTieLifetime := some LIFETIME_SENTINEL } :
      OuterSecurityEnvelopeHeader).write =
      ({ h with remainingTieLifetime := none } :
        OuterSecurityEnvelopeHeader).write := rfl
  refine ⟨hw, ?_⟩
  rw [hw]
  exact outer_parse_write_ok { h with remainingTieLifetime := none } payload hleg

/-- C10 witness: the sentinel collapse evaluated on a concrete legal
envelope. -/
theorem c10_lifetime_sentinel_witness :
    legalOuterEnvelope { c4GoodHeader with remainingTieLifetime := none } ∧
    (({ c4GoodHeader with remainingTieLifetime := some LIFETIME_SENTINEL } :
        OuterSecurityEnvelopeHeader).write =
      ({ c4GoodHeader with remainingTieLifetime := none } :
        OuterSecurityEnvelopeHeader).write ∧
    OuterSecurityEnvelopeHeader.parsePacket
        (({ c4GoodHeader with remainingTieLifetime := some LIFETIME_SENTINEL } :
          OuterSecurityEnvelopeHeader).write ++ [5]) =
      .ok ({ c4GoodHeader with remainingTieLifetime := none }, [5],
        c4GoodHeader.weakNonceLocal.toBeBytes ++
          c4GoodHeader.weakNonceRemote.toBeBytes ++
          u32Bytes LIFETIME_SENTINEL ++ [5])) :=
  ⟨by decide, c10_lifetime_sentinel c4GoodHeader [5] (by decide)⟩

/-- C8: when the step-1 checks of PROCESS_LIE pass (matching major version,
sender neither this node nor illegal) and the body's link_mtu_size differs
from the socket MTU, the procedure performs CLEANUP (neighbor becomes none)
and pushes exactly UpdateZTPOffer then MTUMismatch, in that order, changing
nothing else — in particular the last valid LIE is not recorded. -/
theorem c8_mtu_mismatch (s : LieStateMachine) (address : Nat)
    (lieHeader : PacketHeader) (liePacket : LIEPacket)
    (systemId localLinkId socketMtu : Nat)
    (hmaj : lieHeader.majorVersion = PROTOCOL_MAJOR_VERSION)
    (hsender : lieHeader.sender ≠ systemId)
    (hillegal : lieHeader.sender ≠ ILLEGAL_SYSTEM_I_D)
    (hmtu : liePacket.linkMtuSize ≠ some socketMtu) :
    s.processLieProcedure address lieHeader liePacket systemId localLinkId
        socketMtu =
      { s with neighbor := none
               chainedEventQueue :=
                 s.chainedEventQueue ++ [.updateZTPOffer, .mtuMismatch] } := by
  simp only [LieStateMachine.processLieProcedure]
  rw [if_neg (by simp [hmaj, hsender, hillegal]), if_pos hmtu]
  simp [LieStateMachine.cleanup, LieStateMachine.push, List.append_assoc]

/-- C8 witness: the MTU-mismatch path evaluated on a concrete state and
packet whose advertised MTU 9000 differs from the socket MTU 1500. -/
theorem c8_mtu_mismatch_witness :
    (c1Header.majorVersion = PROTOCOL_MAJOR_VERSION ∧ c1Header.sender ≠ 1 ∧
      c1Header.sender ≠ ILLEGAL_SYSTEM_I_D ∧
      ({ c1Packet with linkMtuSize := some 9000 } : LIEPacket).linkMtuSize ≠
        some 1500) ∧
    c1State.processLieProcedure 0 c1Header
        { c1Packet with linkMtuSize := some 9000 } 1 2 1500 =
      { c1State with neighbor := none
                     chainedEventQueue :=
                       c1State.chainedEventQueue ++
                         [.updateZTPOffer, .mtuMismatch] } :=
  ⟨⟨rfl, by decide, by decide, by decide⟩,
    c8_mtu_mismatch c1State 0 c1Header { c1Packet with linkMtuSize := some 9000 }
      1 2 1500 rfl (by decide) (by decide) (by decide)⟩


end RiftRust
